import Mathlib

/-!
# Verification of the series-reconciliation (splicing) engine and random-walk tester

Shallow embedding of `src/ftrends/construction.py` (the `knitRGB` Knit step and
the `RBC` Chain component) and of `src/stattools/test.py` (`RandomWalkTest`).

Modelling conventions:
* A pandas single-column DataFrame indexed by dates is a list of
  (timestamp, value) pairs (`Rows`), timestamps as `ℕ`, observations as `ℚ`
  (machine floats idealised as exact rationals).
* The runtime type of the index (`pd.DatetimeIndex` or not) is a boolean flag
  on the `PDF` record; `pd.to_datetime` on our abstract timestamps is the
  identity on labels, so the in-place coercion performed by
  `convert_index_type_to_datetime` is modelled as setting the flag.
* `sm.OLS(...).fit()` (third-party statsmodels) is modelled by its documented
  mathematics in exact arithmetic: closed-form least squares, centered R² when
  the design has a constant and uncentered R² when it does not.  The intercept
  p-value is a two-sided t-test probability, a transcendental quantity; it is
  modelled by an oracle parameter `pv`, except that a fit with zero residual
  degrees of freedom (≤ 2 overlap samples for the 2-parameter fit) yields an
  IEEE NaN p-value in the source (`scale = ssr/0`, `t.sf(·, df=0)`), modelled
  as `none`; a float comparison `NaN >= α` is `False`, which `optGE` mirrors.
* `sm.add_constant` is called with its default `has_constant='skip'`: a
  column that is constant and nonzero (in particular any single-row block)
  counts as an existing constant and no constant column is added, and an
  empty block makes `np.ptp` raise.  Both behaviours are modelled
  (`addConstantSkips`), together with the crashes they trigger downstream:
  `res.pvalues["const"]` raises `KeyError` when the overlap regressor was
  skipped, and `res.predict` raises `ValueError` when the prediction block
  was skipped while the retained model kept the intercept.
* A raised `AssertionError`/`ValueError`/`KeyError`/`IndexError` is
  modelled with `Except`; the distinct raise sites of `knitRGB` get
  distinct `KnitError` constructors.
-/

/-- The rows of a single-column DataFrame: (timestamp, value) pairs. -/
abbrev Rows := List (ℕ × ℚ)

/-- The timestamp index of a frame. -/
def keys (l : Rows) : List ℕ := l.map Prod.fst

/-- `df.loc[t]` on the single column: the value at the first row whose
timestamp is `t` (pandas indices in this development have unique keys). -/
def valueAt (l : Rows) (t : ℕ) : Option ℚ :=
  match l with
  | [] => none
  | p :: rest => if p.1 = t then some p.2 else valueAt rest t

/-- `df.index.min()`: `none` models `NaT` on an empty index. -/
def keyMin (l : Rows) : Option ℕ :=
  match l with
  | [] => none
  | p :: rest =>
    match keyMin rest with
    | none => some p.1
    | some m => some (Nat.min p.1 m)

/-- `df.index.max()`: `none` models `NaT` on an empty index. -/
def keyMax (l : Rows) : Option ℕ :=
  match l with
  | [] => none
  | p :: rest =>
    match keyMax rest with
    | none => some p.1
    | some m => some (Nat.max p.1 m)

/-- The pandas comparison `s1 <= s2` used in the `assert`: any comparison
against `NaT` (empty index) is `False`. -/
def ordCheck : Option ℕ → Option ℕ → Bool
  | some a, some b => decide (a ≤ b)
  | _, _ => false

/-- `df1.index.intersection(df2.index)`: the common timestamps, in `df1`'s
(ascending) order. -/
def interKeys (df1 df2 : Rows) : List ℕ :=
  (keys df1).filter (fun t => decide (t ∈ keys df2))

/-- `(df.loc[idx] == 0).sum()`: number of exact-zero observations of `df`
at the timestamps of `idx`. -/
def countZerosOn (df : Rows) (idx : List ℕ) : ℕ :=
  (idx.filter (fun t => decide (valueAt df t = some 0))).length

/-- Insert one row into a key-sorted row list (auxiliary to `sortByKey`). -/
def insertPair (p : ℕ × ℚ) : Rows → Rows
  | [] => [p]
  | q :: rest => if p.1 ≤ q.1 then p :: q :: rest else q :: insertPair p rest

/-- `pd.concat([...]).sort_index()`: sort rows by timestamp (insertion sort;
the concatenations in `knitRGB` always have disjoint key sets, so any stable
sort produces the same frame). -/
def sortByKey : Rows → Rows
  | [] => []
  | p :: rest => insertPair p (sortByKey rest)

/-- Sum of a list of rationals. -/
def sumL (l : List ℚ) : ℚ := l.foldr (· + ·) 0

/-- Closed-form 2-parameter OLS of y on (1, x) over (x, y) pairs:
`(intercept, slope)`.  Embeds `sm.OLS(y, add_constant(x)).fit().params`
in exact arithmetic (the rank-deficient case of the pseudo-inverse is not
exercised by any claim). -/
def olsConstParams (pairs : List (ℚ × ℚ)) : ℚ × ℚ :=
  let n : ℚ := (pairs.length : ℚ)
  let sx := sumL (pairs.map Prod.fst)
  let sy := sumL (pairs.map Prod.snd)
  let sxx := sumL (pairs.map (fun p => p.1 * p.1))
  let sxy := sumL (pairs.map (fun p => p.1 * p.2))
  let d := n * sxx - sx * sx
  let b := (n * sxy - sx * sy) / d
  let a := (sy - b * sx) / n
  (a, b)

/-- Residual sum of squares of the with-intercept fit. -/
def ssrConst (pairs : List (ℚ × ℚ)) : ℚ :=
  let ab := olsConstParams pairs
  sumL (pairs.map (fun p => (p.2 - ab.1 - ab.2 * p.1) ^ 2))

/-- `res.rsquared` of the with-intercept fit: centered, `1 - ssr/tss`. -/
def r2Const (pairs : List (ℚ × ℚ)) : ℚ :=
  let n : ℚ := (pairs.length : ℚ)
  let ybar := sumL (pairs.map Prod.snd) / n
  let tss := sumL (pairs.map (fun p => (p.2 - ybar) ^ 2))
  1 - ssrConst pairs / tss

/-- Closed-form 1-parameter OLS of y on x (no intercept): the slope.
Embeds `sm.OLS(y, x).fit().params`. -/
def olsNoConstSlope (pairs : List (ℚ × ℚ)) : ℚ :=
  let sxx := sumL (pairs.map (fun p => p.1 * p.1))
  let sxy := sumL (pairs.map (fun p => p.1 * p.2))
  sxy / sxx

/-- `res.rsquared` of the no-intercept fit: uncentered, `1 - ssr/Σy²`. -/
def r2NoConst (pairs : List (ℚ × ℚ)) : ℚ :=
  let b := olsNoConstSlope pairs
  let ssr := sumL (pairs.map (fun p => (p.2 - b * p.1) ^ 2))
  let syy := sumL (pairs.map (fun p => p.2 ^ 2))
  1 - ssr / syy

/-- `res.pvalues["const"]` of the with-intercept fit.  With `n ≤ 2` overlap
samples the 2-parameter fit has zero residual degrees of freedom, so the
source computes `scale = ssr/0` and `stats.t.sf(·, df=0)`, an IEEE NaN,
modelled as `none`.  Otherwise the transcendental t-probability is supplied
by the oracle `pv` (itself `Option`-valued so that further float corner
cases need not be assumed well defined). -/
def constPValue (pv : List (ℚ × ℚ) → Option ℚ) (pairs : List (ℚ × ℚ)) : Option ℚ :=
  if pairs.length ≤ 2 then none else pv pairs

/-- The float comparison `const_pvalue >= reg_const_significance`:
`False` whenever the p-value is NaN (`none`). -/
def optGE (o : Option ℚ) (sig : ℚ) : Bool :=
  match o with
  | none => false
  | some p => decide (sig ≤ p)

/-- The model retained by `_regression`, with the diagnostics it returns. -/
structure RegOut where
  addConst : Bool
  a : ℚ
  b : ℚ
  r2 : ℚ
  deriving DecidableEq, Repr

/-- Embeds `knitRGB._regression`: first fit with an intercept; if the
intercept's p-value is not below `sig` (`const_pvalue >= sig`, false for
NaN), drop the constant, refit, and return the second fit's R². -/
def regressionStep (pv : List (ℚ × ℚ) → Option ℚ) (sig : ℚ)
    (pairs : List (ℚ × ℚ)) : RegOut :=
  if optGE (constPValue pv pairs) sig then
    { addConst := false, a := 0, b := olsNoConstSlope pairs, r2 := r2NoConst pairs }
  else
    let ab := olsConstParams pairs
    { addConst := true, a := ab.1, b := ab.2, r2 := r2Const pairs }

/-- `res.predict` of the retained model at regressor value `x`, on the path
where the prediction design matrix matches the retained model — i.e. where
`sm.add_constant` really added the constant column whenever the model kept
one.  The cases in which `add_constant(has_constant='skip')` adds no column
(or raises on an empty block), making the real `predict` crash instead of
evaluating the affine model, are screened out in `knitFit` before this
evaluation is reached. -/
def predictReg (reg : RegOut) (x : ℚ) : ℚ :=
  if reg.addConst then reg.a + reg.b * x else reg.b * x

/-- `sm.add_constant(block)` with the default `has_constant='skip'` on a
single-column block.  `none` models the `ValueError` numpy raises inside
`add_constant` on an empty block (`np.ptp` over an empty axis has no
identity).  `some true` means the column counts as an existing constant —
all entries equal (`ptp == 0`) and all nonzero — so nothing is added.
`some false` means a constant column is prepended as intended. -/
def addConstantSkips (xs : List ℚ) : Option Bool :=
  match xs with
  | [] => none
  | v :: rest => some (decide (v ≠ 0) && rest.all (fun w => decide (w = v)))

/-- The distinct failure sites of `knitRGB`: the three `raise AssertionError`
sites of the source (distinguished by position and message; the spec's
names), plus the three library crash sites reachable on check-passing
inputs — `ValueError` inside `sm.add_constant` on an empty block,
`KeyError` at `res.pvalues["const"]` when `add_constant` skipped the
constant for the overlap regressor, and `ValueError` (shapes not aligned)
inside `res.predict` when `add_constant` skipped the constant for the
out-of-overlap prediction block while the retained model has two
parameters. -/
inductive KnitError where
  | orderingError
  | insufficientOverlap
  | degenerateData
  | addConstantEmpty
  | pvaluesKeyError
  | predictShapeError
  deriving DecidableEq, Repr

/-- The `direction` argument; the source compares against the two string
literals `"forward"` and `"backward"` (any other string leaves `df_rbc`
unbound, outside every claim). -/
inductive Direction where
  | forward
  | backward
  deriving DecidableEq, Repr

/-- The overlap-region regression pairs `(x, y)` used by the forward call
`_regression(_df1, _df2)`: response `y` from `dfy`, regressor `x` from
`dfx`, aligned on their common timestamps. -/
def regPairs (dfy dfx : Rows) (inter : List ℕ) : List (ℚ × ℚ) :=
  inter.map (fun t => ((valueAt dfx t).getD 0, (valueAt dfy t).getD 0))

/-- The calibrated out-of-overlap rows: rows of `src` whose timestamp is not
in the overlap, with the retained model's prediction as value.  Embeds
`res.predict(X_pred)` over `src[~src.index.isin(idx_intersection)]` on the
path where the prediction design matches the retained model; the skip/raise
cases of `sm.add_constant(X_pred)` are handled in `knitFit` before these
rows are formed. -/
def predRows (reg : RegOut) (src : Rows) (inter : List ℕ) : Rows :=
  (src.filter (fun p => decide (p.1 ∉ inter))).map (fun p => (p.1, predictReg reg p.2))

/-- The regression-and-assembly tail of one `knitRGB` direction branch:
response (target) frame `dfy`, regressor frame `dfx`, overlap `inter`.
First `sm.add_constant(_dfx)` on the overlap regressor column: an empty
block raises inside `add_constant`; a constant nonzero column is skipped,
after which `res.pvalues["const"]` raises `KeyError`.  Otherwise the
two-stage regression of `_regression` runs; if the intercept is retained,
`sm.add_constant(X_pred)` on the out-of-overlap block again raises on an
empty block and skips a constant nonzero one — in the skip case
`res.predict` then raises (design has one column, model has two
parameters).  Only when the design matrices match does the source reach
`pd.concat([dfy, predictions]).sort_index()`. -/
def knitFit (pv : List (ℚ × ℚ) → Option ℚ) (sig : ℚ) (dfy dfx : Rows)
    (inter : List ℕ) : Except KnitError (Rows × ℚ × Bool) :=
  match addConstantSkips (inter.map (fun t => (valueAt dfx t).getD 0)) with
  | none => .error .addConstantEmpty
  | some true => .error .pvaluesKeyError
  | some false =>
    let reg := regressionStep pv sig (regPairs dfy dfx inter)
    if reg.addConst then
      match addConstantSkips ((dfx.filter (fun p => decide (p.1 ∉ inter))).map Prod.snd) with
      | none => .error .addConstantEmpty
      | some true => .error .predictShapeError
      | some false => .ok (sortByKey (dfy ++ predRows reg dfx inter), reg.r2, reg.addConst)
    else
      .ok (sortByKey (dfy ++ predRows reg dfx inter), reg.r2, reg.addConst)

/-- Embeds the body of `knitRGB` after the in-place index coercion: ordering
check, overlap floor, degenerate-zero ceiling, then the direction branch's
regression, prediction and assembly (`knitFit`).  Returns
`(spliced rows, retained R², intercept flag)` or the raised error. -/
def knitCore (pv : List (ℚ × ℚ) → Option ℚ) (df1 df2 : Rows) (direction : Direction)
    (min_num_duplicated_samples max_num_zeros : ℕ) (reg_const_significance : ℚ) :
    Except KnitError (Rows × ℚ × Bool) :=
  if ordCheck (keyMin df1) (keyMin df2) then
    let inter := interKeys df1 df2
    if inter.length < min_num_duplicated_samples then
      .error .insufficientOverlap
    else
      if countZerosOn df1 inter ≤ max_num_zeros ∧ countZerosOn df2 inter ≤ max_num_zeros then
        match direction with
        | .forward => knitFit pv reg_const_significance df1 df2 inter
        | .backward => knitFit pv reg_const_significance df2 df1 inter
      else .error .degenerateData
  else .error .orderingError

/-- A pandas DataFrame as the components see it: its rows plus the runtime
type of its index (`dtIndex = true` iff the index is a `pd.DatetimeIndex`). -/
structure PDF where
  dtIndex : Bool
  rows : Rows
  deriving DecidableEq, Repr

/-- Embeds `convert_index_type_to_datetime`: if the index is not a
`DatetimeIndex`, replace it (in place, on the caller's frame) by its
datetime coercion — on our abstract timestamps the labels are unchanged
and only the index's runtime type changes. -/
def convert_index_type_to_datetime (df : PDF) : PDF :=
  if df.dtIndex then df else { dtIndex := true, rows := df.rows }

/-- Embeds `knitRGB`.  The first two components of the result are the states
of the two argument frames after the call (the in-place index coercion is
the only mutation the source performs on them); the third is the returned
`(df_rbc, r2, add_const)` or the raised error. -/
def knitRGB (pv : List (ℚ × ℚ) → Option ℚ) (df1 df2 : PDF) (direction : Direction)
    (min_num_duplicated_samples max_num_zeros : ℕ) (reg_const_significance : ℚ) :
    PDF × PDF × Except KnitError (PDF × ℚ × Bool) :=
  let df1' := convert_index_type_to_datetime df1
  let df2' := convert_index_type_to_datetime df2
  (df1', df2',
    (knitCore pv df1'.rows df2'.rows direction min_num_duplicated_samples
        max_num_zeros reg_const_significance).map
      (fun r => (⟨true, r.1⟩, r.2.1, r.2.2)))

/-- `df_rbc / df_rbc.max() * 100`: `df.max()` on the single column.
On an empty frame pandas gives NaN; the claims about normalization carry a
positivity hypothesis that rules the empty frame out, so the default is
irrelevant there. -/
def seriesMax (rows : Rows) : ℚ :=
  ((rows.map Prod.snd).foldr max (0 : ℚ))

/-- The index-style rescaling `df_rbc / df_rbc.max() * 100` applied by
`RBC.knit` when `normalize` is set. -/
def normalizeRows (rows : Rows) : Rows :=
  rows.map (fun p => (p.1, p.2 / seriesMax rows * 100))

/-- `normalizeRows` lifted to a frame (elementwise division keeps the
datetime index). -/
def normalizePDF (df : PDF) : PDF :=
  { dtIndex := df.dtIndex, rows := normalizeRows df.rows }

/-- One entry of `RBC.knit`'s per-step `summary` dict. -/
structure StepSummary where
  start_date : Option ℕ
  end_date : Option ℕ
  r2 : ℚ
  intercept : Bool
  deriving DecidableEq, Repr

/-- Failures of a whole chain call: a propagated `knitRGB` failure, or the
`IndexError` of `self.list_df[0]` / `self.list_df[-1]` on an empty list. -/
inductive ChainError where
  | knit (e : KnitError)
  | indexError
  deriving DecidableEq, Repr

/-- The forward loop of `RBC.knit`: fold `knitRGB(df_rbc, df_exog, forward)`
over the remaining frames, recording per step the summary entry
`{df_exog.index.min(), df_rbc.index.max() before the step, r2, add_const}`.
Any step failure propagates immediately. -/
def chainForward (pv : List (ℚ × ℚ) → Option ℚ)
    (min_num_duplicated_samples max_num_zeros : ℕ) (reg_const_significance : ℚ)
    (df_rbc : PDF) : List PDF → Except KnitError (PDF × List StepSummary)
  | [] => .ok (df_rbc, [])
  | df_exog :: rest =>
    let start_date := keyMin df_exog.rows
    let end_date := keyMax df_rbc.rows
    match (knitRGB pv df_rbc df_exog .forward min_num_duplicated_samples
        max_num_zeros reg_const_significance).2.2 with
    | .error e => .error e
    | .ok (df', r2, add_const) =>
      (chainForward pv min_num_duplicated_samples max_num_zeros
          reg_const_significance df' rest).map
        (fun r => (r.1, ⟨start_date, end_date, r2, add_const⟩ :: r.2))

/-- The backward loop of `RBC.knit`: iterate `reversed(list_df[:-1])`
(passed here already reversed), each step `knitRGB(df_exog, df_rbc, backward)`
with summary entry `{df_rbc.index.min() before the step,
df_exog.index.max(), r2, add_const}`. -/
def chainBackward (pv : List (ℚ × ℚ) → Option ℚ)
    (min_num_duplicated_samples max_num_zeros : ℕ) (reg_const_significance : ℚ)
    (df_rbc : PDF) : List PDF → Except KnitError (PDF × List StepSummary)
  | [] => .ok (df_rbc, [])
  | df_exog :: rest =>
    let start_date := keyMin df_rbc.rows
    let end_date := keyMax df_exog.rows
    match (knitRGB pv df_exog df_rbc .backward min_num_duplicated_samples
        max_num_zeros reg_const_significance).2.2 with
    | .error e => .error e
    | .ok (df', r2, add_const) =>
      (chainBackward pv min_num_duplicated_samples max_num_zeros
          reg_const_significance df' rest).map
        (fun r => (r.1, ⟨start_date, end_date, r2, add_const⟩ :: r.2))

/-- The `RBC` component: the stored list of frames and the `summary`
attribute (`none` before the first completed `knit` call — `__init__` does
not create it). -/
structure RBC where
  list_df : List PDF
  summary : Option (List StepSummary)

/-- The pre-normalization body of `RBC.knit` for the requested direction:
pick the seed frame (`list_df[0]` forward, `list_df[-1]` backward; empty
list raises `IndexError`) and run the knitting loop. -/
def chainResult (st : RBC) (pv : List (ℚ × ℚ) → Option ℚ) (direction : Direction)
    (min_num_duplicated_samples max_num_zeros : ℕ) (reg_const_significance : ℚ) :
    Except ChainError (PDF × List StepSummary) :=
  match direction with
  | .forward =>
    match st.list_df with
    | [] => .error .indexError
    | d0 :: rest =>
      (chainForward pv min_num_duplicated_samples max_num_zeros
          reg_const_significance d0 rest).mapError ChainError.knit
  | .backward =>
    match st.list_df.reverse with
    | [] => .error .indexError
    | dLast :: revRest =>
      (chainBackward pv min_num_duplicated_samples max_num_zeros
          reg_const_significance dLast revRest).mapError ChainError.knit

/-- Embeds `RBC.knit` as a state transformer: on success the completed
summary is stored on the component (`self.summary = summary.copy()`) and the
(optionally normalized) spliced frame is returned; a failure inside the loop
propagates before that assignment, leaving the stored summary unchanged.
(The in-place index coercion of the stored frames by `knitRGB` is modelled
at the `knitRGB` level and not tracked through `list_df` here; no claim
about the chain mentions `list_df`.) -/
def RBC.knit (st : RBC) (pv : List (ℚ × ℚ) → Option ℚ) (direction : Direction)
    (min_num_duplicated_samples max_num_zeros : ℕ) (reg_const_significance : ℚ)
    (normalize : Bool) : RBC × Except ChainError PDF :=
  match chainResult st pv direction min_num_duplicated_samples max_num_zeros
      reg_const_significance with
  | .error e => (st, .error e)
  | .ok (df_rbc, summary) =>
    ({ st with summary := some summary },
      .ok (if normalize then normalizePDF df_rbc else df_rbc))

/-- Embeds the `RandomWalkTest` object state fixed by `__init__`. -/
structure RandomWalkTest where
  test_name : String
  h0 : String
  method_list : List String
  method : String
  deriving DecidableEq, Repr

/-- Embeds `RandomWalkTest.__init__`: validate `method` against the
recognized list `["normal", "Lo-MacKinlay"]`; any other name raises
`ValueError` (`"... is not in method-list."`) before the object is usable. -/
def RandomWalkTest.make (method : String) : Except String RandomWalkTest :=
  let ml : List String := ["normal", "Lo-MacKinlay"]
  if method ∈ ml then
    .ok { test_name := "Random Walk Test"
          h0 := "Series is generated from a random walk."
          method_list := ml
          method := method }
  else
    .error (method ++ " is not in method-list.")

/-- The "data check and modification" prologue of
`RandomWalkTest._Lo_MacKinlay` on a series of rationals: with
`mod = (data.size - 1) % q` (Python integer `%`, i.e. `Int.emod`), if
`mod > 0` record the warning string and drop the last `q` samples
(`data[:-q]`); otherwise pass the data through with no warning.  The branch
contains no raise; the heteroskedasticity-robust statistic computed
afterwards is real-valued (square roots, normal tail) and orthogonal to the
truncation claim. -/
def loMacKinlayPrep (data : List ℚ) (q : ℕ) : List ℚ × List String :=
  let mod : ℤ := ((data.length : ℤ) - 1) % (q : ℤ)
  if mod > 0 then
    (data.take (data.length - q),
      ["#samples - 1 cannot be divided by " ++ toString q ++
        ". Remove the last " ++ toString mod ++ " samples to execute the test"])
  else (data, [])

/-- The oracle used to instantiate concrete runs: its value is irrelevant to
every concrete run below (each exercises only the zero-degrees-of-freedom
branch or no regression at all). -/
def pv0 : List (ℚ × ℚ) → Option ℚ := fun _ => none

/-- Reduction of `knitCore` once the date-order assertion has passed. -/
theorem knitCore_of_ord (pv : List (ℚ × ℚ) → Option ℚ) (df1 df2 : Rows)
    (dir : Direction) (minDup maxZeros : ℕ) (sig : ℚ)
    (h : ordCheck (keyMin df1) (keyMin df2) = true) :
    knitCore pv df1 df2 dir minDup maxZeros sig =
      (if (interKeys df1 df2).length < minDup then .error .insufficientOverlap
       else if countZerosOn df1 (interKeys df1 df2) ≤ maxZeros ∧
              countZerosOn df2 (interKeys df1 df2) ≤ maxZeros then
         match dir with
         | .forward => knitFit pv sig df1 df2 (interKeys df1 df2)
         | .backward => knitFit pv sig df2 df1 (interKeys df1 df2)
       else .error .degenerateData) := by
  unfold knitCore
  rw [h]
  simp only [if_true]

/-- `knitFit` never produces the overlap-floor error: the insufficient
overlap assert is the only site raising it, and it fires before the
regression tail runs. -/
theorem knitFit_ne_insufficient (pv : List (ℚ × ℚ) → Option ℚ) (sig : ℚ)
    (dfy dfx : Rows) (inter : List ℕ) :
    knitFit pv sig dfy dfx inter ≠ Except.error KnitError.insufficientOverlap := by
  unfold knitFit
  split
  · simp
  · simp
  all_goals
    dsimp only
    split
    · split <;> simp
    · simp

/-- `knitFit` never produces the degenerate-zero error: the zero-ceiling
assert is the only site raising it, and it fires before the regression tail
runs. -/
theorem knitFit_ne_degenerate (pv : List (ℚ × ℚ) → Option ℚ) (sig : ℚ)
    (dfy dfx : Rows) (inter : List ℕ) :
    knitFit pv sig dfy dfx inter ≠ Except.error KnitError.degenerateData := by
  unfold knitFit
  split
  · simp
  · simp
  all_goals
    dsimp only
    split
    · split <;> simp
    · simp

/-- C1 counterexample: constructing with the spec's literal method name
`"variance-ratio"` does not succeed — the source's recognized strings are
`"normal"` and `"Lo-MacKinlay"`, and any other name raises `ValueError`. -/
theorem C1_counterexample :
    RandomWalkTest.make "variance-ratio" =
      Except.error "variance-ratio is not in method-list." := by
  rfl

/-- C1 (amended): constructing a `RandomWalkTest` succeeds for exactly the
two recognized method names `"normal"` and `"Lo-MacKinlay"` (the latter is
the variance-ratio method); construction with any other method name —
including the literal string `"variance-ratio"` — fails with a `ValueError`
at construction, before any test call, and no object is produced. -/
theorem C1_thm (m : String) :
    (∃ t, RandomWalkTest.make m = Except.ok t) ↔
      (m = "normal" ∨ m = "Lo-MacKinlay") := by
  unfold RandomWalkTest.make
  by_cases h : m ∈ (["normal", "Lo-MacKinlay"] : List String)
  · rw [if_pos h]
    simp only [List.mem_cons, List.mem_singleton, List.not_mem_nil, or_false] at h
    exact ⟨fun _ => h, fun _ => ⟨_, rfl⟩⟩
  · rw [if_neg h]
    constructor
    · rintro ⟨t, ht⟩
      exact absurd ht (by simp)
    · intro hm
      exact absurd (by simpa using hm) h

instance {ε α : Type _} [DecidableEq ε] [DecidableEq α] : DecidableEq (Except ε α) := fun
  | .ok a, .ok b => decidable_of_iff (a = b) (by simp)
  | .ok _, .error _ => isFalse (by simp)
  | .error _, .ok _ => isFalse (by simp)
  | .error e, .error f => decidable_of_iff (e = f) (by simp)

/-- C3: whenever the first (with-intercept) fit's intercept p-value is
defined (it is NaN — `none` — exactly when the fit has zero residual
degrees of freedom), the retained-intercept flag is true iff that p-value
is strictly below the significance threshold, and the reported R² is that
of whichever fit (with or without intercept) is retained. -/
theorem C3_thm (pv : List (ℚ × ℚ) → Option ℚ) (sig : ℚ) (pairs : List (ℚ × ℚ))
    (p : ℚ) (hp : constPValue pv pairs = some p) :
    ((regressionStep pv sig pairs).addConst = true ↔ p < sig) ∧
    (regressionStep pv sig pairs).r2 =
      (if (regressionStep pv sig pairs).addConst then r2Const pairs
       else r2NoConst pairs) := by
  unfold regressionStep
  rw [hp]
  by_cases hps : sig ≤ p
  · simp [optGE, hps, not_lt.mpr hps]
  · simp [optGE, hps, lt_of_not_le hps]

/-- C3 witness: a 3-sample overlap with oracle p-value 1/100 against
threshold 1/20 retains the intercept and reports the with-intercept R². -/
theorem C3_thm_witness :
    constPValue (fun _ => some (1/100)) [((1:ℚ), (1:ℚ)), (2, 2), (3, 3)] = some (1/100) ∧
    (((regressionStep (fun _ => some (1/100)) (1/20)
        [((1:ℚ), (1:ℚ)), (2, 2), (3, 3)]).addConst = true ↔ (1/100 : ℚ) < 1/20) ∧
      (regressionStep (fun _ => some (1/100)) (1/20)
        [((1:ℚ), (1:ℚ)), (2, 2), (3, 3)]).r2 =
      (if (regressionStep (fun _ => some (1/100)) (1/20)
          [((1:ℚ), (1:ℚ)), (2, 2), (3, 3)]).addConst then
        r2Const [((1:ℚ), (1:ℚ)), (2, 2), (3, 3)]
       else r2NoConst [((1:ℚ), (1:ℚ)), (2, 2), (3, 3)])) :=
  ⟨by rfl, C3_thm _ _ _ _ (by rfl)⟩

/-- C5: once the date-order assertion has passed, `knitRGB` fails with the
insufficient-overlap error iff the timestamp intersection is strictly
smaller than `min_num_duplicated_samples` (so an overlap of exactly the
floor passes this check, one fewer fails). -/
theorem C5_thm (pv : List (ℚ × ℚ) → Option ℚ) (df1 df2 : Rows) (dir : Direction)
    (minDup maxZeros : ℕ) (sig : ℚ)
    (hord : ordCheck (keyMin df1) (keyMin df2) = true) :
    knitCore pv df1 df2 dir minDup maxZeros sig = .error .insufficientOverlap ↔
      (interKeys df1 df2).length < minDup := by
  rw [knitCore_of_ord pv df1 df2 dir minDup maxZeros sig hord]
  by_cases hlen : (interKeys df1 df2).length < minDup
  · simp [hlen]
  · rw [if_neg hlen]
    constructor
    · intro heq
      exfalso
      revert heq
      split
      · cases dir
        · exact fun heq => knitFit_ne_insufficient pv sig df1 df2 (interKeys df1 df2) heq
        · exact fun heq => knitFit_ne_insufficient pv sig df2 df1 (interKeys df1 df2) heq
      · simp
    · intro hcon
      exact absurd hcon hlen

/-- C5 witness: with a 2-timestamp overlap, a floor of 3 fails with the
insufficient-overlap error (2 < 3), while the ordering check passes. -/
theorem C5_thm_witness :
    ordCheck (keyMin [((1:ℕ), (10:ℚ)), (2, 20), (3, 30)])
        (keyMin [((2:ℕ), (2:ℚ)), (3, 3), (4, 4)]) = true ∧
    (knitCore pv0 [((1:ℕ), (10:ℚ)), (2, 20), (3, 30)] [((2:ℕ), (2:ℚ)), (3, 3), (4, 4)]
        .forward 3 10 (1/20) = .error .insufficientOverlap ↔
      (interKeys [((1:ℕ), (10:ℚ)), (2, 20), (3, 30)]
          [((2:ℕ), (2:ℚ)), (3, 3), (4, 4)]).length < 3) :=
  ⟨by decide, C5_thm pv0 _ _ _ _ _ _ (by decide)⟩

/-- C6: once the ordering and overlap-floor checks have passed, `knitRGB`
fails with the degenerate-data error iff at least one of the two series has
strictly more than `max_num_zeros` exact-zero observations on the overlap
(exactly the ceiling passes, one more fails). -/
theorem C6_thm (pv : List (ℚ × ℚ) → Option ℚ) (df1 df2 : Rows) (dir : Direction)
    (minDup maxZeros : ℕ) (sig : ℚ)
    (hord : ordCheck (keyMin df1) (keyMin df2) = true)
    (hlen : minDup ≤ (interKeys df1 df2).length) :
    knitCore pv df1 df2 dir minDup maxZeros sig = .error .degenerateData ↔
      (maxZeros < countZerosOn df1 (interKeys df1 df2) ∨
        maxZeros < countZerosOn df2 (interKeys df1 df2)) := by
  rw [knitCore_of_ord pv df1 df2 dir minDup maxZeros sig hord,
    if_neg (not_lt.mpr hlen)]
  by_cases hz : countZerosOn df1 (interKeys df1 df2) ≤ maxZeros ∧
      countZerosOn df2 (interKeys df1 df2) ≤ maxZeros
  · rw [if_pos hz]
    constructor
    · intro heq
      exfalso
      revert heq
      cases dir
      · exact fun heq => knitFit_ne_degenerate pv sig df1 df2 (interKeys df1 df2) heq
      · exact fun heq => knitFit_ne_degenerate pv sig df2 df1 (interKeys df1 df2) heq
    · intro hcon
      rcases hcon with hc | hc
      · exact absurd hz.1 (not_le.mpr hc)
      · exact absurd hz.2 (not_le.mpr hc)
  · rw [if_neg hz]
    rw [not_and_or, not_le, not_le] at hz
    simp [hz]

/-- C6 witness: two zeros in the first series on a 3-timestamp overlap
against a ceiling of 1 fail with the degenerate-data error. -/
theorem C6_thm_witness :
    ordCheck (keyMin [((1:ℕ), (0:ℚ)), (2, 0), (3, 30)])
        (keyMin [((1:ℕ), (5:ℚ)), (2, 6), (3, 7)]) = true ∧
    3 ≤ (interKeys [((1:ℕ), (0:ℚ)), (2, 0), (3, 30)]
        [((1:ℕ), (5:ℚ)), (2, 6), (3, 7)]).length ∧
    (knitCore pv0 [((1:ℕ), (0:ℚ)), (2, 0), (3, 30)] [((1:ℕ), (5:ℚ)), (2, 6), (3, 7)]
        .forward 3 1 (1/20) = .error .degenerateData ↔
      (1 < countZerosOn [((1:ℕ), (0:ℚ)), (2, 0), (3, 30)]
          (interKeys [((1:ℕ), (0:ℚ)), (2, 0), (3, 30)] [((1:ℕ), (5:ℚ)), (2, 6), (3, 7)]) ∨
        1 < countZerosOn [((1:ℕ), (5:ℚ)), (2, 6), (3, 7)]
          (interKeys [((1:ℕ), (0:ℚ)), (2, 0), (3, 30)] [((1:ℕ), (5:ℚ)), (2, 6), (3, 7)]))) :=
  ⟨by decide, by decide, C6_thm pv0 _ _ _ _ _ _ (by decide) (by decide)⟩

/-- C7: with stride `q ≥ 1` on a series of length `n`, the Lo–MacKinlay
prologue records its (single) truncation warning iff `(n-1) mod q ≠ 0`
(Python integer remainder); in that case the retained data is an initial
segment of length `n - q`, i.e. the trailing `q` observations are removed
(`data[:-q]`); and when `(n-1) mod q = 0` the warnings list is empty.  The
prologue contains no raise: it is a total function of the data. -/
theorem C7_thm (data : List ℚ) (q : ℕ) (hq : 1 ≤ q) :
    ((loMacKinlayPrep data q).2 ≠ [] ↔ ((data.length : ℤ) - 1) % (q : ℤ) ≠ 0) ∧
    (((data.length : ℤ) - 1) % (q : ℤ) ≠ 0 →
      (loMacKinlayPrep data q).1 ++ data.drop (data.length - q) = data ∧
        (loMacKinlayPrep data q).1.length = data.length - q) ∧
    (((data.length : ℤ) - 1) % (q : ℤ) = 0 → (loMacKinlayPrep data q).2 = []) := by
  have hq0 : ((q : ℤ)) ≠ 0 := by
    have : 0 < q := hq
    exact_mod_cast this.ne'
  have hnn : 0 ≤ ((data.length : ℤ) - 1) % (q : ℤ) := Int.emod_nonneg _ hq0
  unfold loMacKinlayPrep
  by_cases hmod : ((data.length : ℤ) - 1) % (q : ℤ) > 0
  · rw [if_pos hmod]
    refine ⟨?_, fun _ => ⟨?_, ?_⟩, fun h0 => absurd h0 (by omega)⟩
    · simp only [ne_eq]
      constructor
      · intro _
        omega
      · intro _
        simp
    · exact List.take_append_drop _ data
    · rw [List.length_take]
      exact Nat.min_eq_left (Nat.sub_le _ _)
  · rw [if_neg hmod]
    have h0 : ((data.length : ℤ) - 1) % (q : ℤ) = 0 := by omega
    exact ⟨by simp [h0], fun h => absurd h0 h, fun _ => rfl⟩

/-- C7 witness data: 6 samples, stride 4, `(6-1) % 4 = 1 ≠ 0`. -/
def c7data : List ℚ := [1, 2, 3, 4, 5, 6]

/-- C7 witness: the 6-sample series with stride 4 gets the warning and keeps
the first `6 - 4 = 2` samples; appending the dropped tail restores the
input. -/
theorem C7_thm_witness :
    1 ≤ 4 ∧
    ((((loMacKinlayPrep c7data 4).2 ≠ [] ↔ ((c7data.length : ℤ) - 1) % (4 : ℤ) ≠ 0) ∧
      (((c7data.length : ℤ) - 1) % (4 : ℤ) ≠ 0 →
        (loMacKinlayPrep c7data 4).1 ++ c7data.drop (c7data.length - 4) = c7data ∧
          (loMacKinlayPrep c7data 4).1.length = c7data.length - 4) ∧
      (((c7data.length : ℤ) - 1) % (4 : ℤ) = 0 → (loMacKinlayPrep c7data 4).2 = []))) :=
  ⟨by decide, C7_thm c7data 4 (by decide)⟩

/-- C10 counterexample: an input frame whose index is not a
`pd.DatetimeIndex` is mutated by the Knit call — its index is coerced to
datetime in place, so the frame's state after the call differs from its
state before. -/
theorem C10_counterexample :
    (knitRGB pv0 (PDF.mk false [(1, 10)]) (PDF.mk true [(2, 5)])
        .forward 0 0 (1/20)).1 ≠ PDF.mk false [(1, 10)] := by
  intro h
  have : (true : Bool) = false := congrArg PDF.dtIndex h
  simp at this

/-- C10 (amended): when both input frames already carry a datetime index —
the only case in which the source's defensive coercion is the identity —
Knit leaves both inputs exactly as they were: the only mutation `knitRGB`
ever performs on its arguments is the in-place index-type coercion of a
non-datetime-indexed input, done before any validation. -/
theorem C10_thm (pv : List (ℚ × ℚ) → Option ℚ) (df1 df2 : PDF) (dir : Direction)
    (minDup maxZeros : ℕ) (sig : ℚ)
    (h1 : df1.dtIndex = true) (h2 : df2.dtIndex = true) :
    (knitRGB pv df1 df2 dir minDup maxZeros sig).1 = df1 ∧
    (knitRGB pv df1 df2 dir minDup maxZeros sig).2.1 = df2 := by
  unfold knitRGB convert_index_type_to_datetime
  simp [h1, h2]

/-- C10 witness: two datetime-indexed frames are returned untouched. -/
theorem C10_thm_witness :
    (PDF.mk true [(1, 10)]).dtIndex = true ∧
    (PDF.mk true [(2, 5)]).dtIndex = true ∧
    (knitRGB pv0 (PDF.mk true [(1, 10)]) (PDF.mk true [(2, 5)])
        .forward 0 0 (1/20)).1 = PDF.mk true [(1, 10)] ∧
    (knitRGB pv0 (PDF.mk true [(1, 10)]) (PDF.mk true [(2, 5)])
        .forward 0 0 (1/20)).2.1 = PDF.mk true [(2, 5)] :=
  ⟨rfl, rfl,
    (C10_thm pv0 _ _ _ _ _ _ rfl rfl).1,
    (C10_thm pv0 _ _ _ _ _ _ rfl rfl).2⟩

/-- The scenario base series `{2020-01: 10, 2020-02: 20, 2020-03: 30}`
(months encoded as timestamps 1..4). -/
def c4base : Rows := [(1, 10), (2, 20), (3, 30)]

/-- The scenario extension series `{2020-02: 2, 2020-03: 3, 2020-04: 4}`. -/
def c4ext : Rows := [(2, 2), (3, 3), (4, 4)]

/-- C4: the code crashes on the spec's own scenario.  On the scenario input
(forward direction, `min_num_duplicated_samples = 2`) the run reaches the
prediction step with the intercept retained — the 2-sample overlap gives the
with-intercept fit zero residual degrees of freedom, its intercept p-value
is NaN, and the float test `NaN >= 0.05` is `False`, so the
refit-without-intercept branch is never taken — and then
`sm.add_constant(X_pred)` (default `has_constant='skip'`) adds no constant
column to the single-row 2020-04 prediction frame (its column is constant
and nonzero), after which `res.predict` raises `ValueError` (one-column
design against the two-parameter model).  No series, flag, or R² is ever
returned, against the claim's expected `(≈40, retained = false, R² ≈ 1.0)`. -/
theorem C4_thm :
    knitCore pv0 c4base c4ext .forward 2 10 (1/20) =
      .error .predictShapeError := by
  rfl

/-- C8: if any Knit step inside a Chain call fails, the whole call fails —
the returned value is that error, not a series — and the component's stored
summary is exactly what it was before the call: the partial per-step
summaries accumulated up to the failing step are discarded, because the
source assigns `self.summary` only after the whole loop completes. -/
theorem C8_thm (st : RBC) (pv : List (ℚ × ℚ) → Option ℚ) (dir : Direction)
    (minDup maxZeros : ℕ) (sig : ℚ) (normalize : Bool) (e : KnitError)
    (h : (RBC.knit st pv dir minDup maxZeros sig normalize).2 =
      .error (ChainError.knit e)) :
    (RBC.knit st pv dir minDup maxZeros sig normalize).1.summary = st.summary := by
  unfold RBC.knit
  cases hres : chainResult st pv dir minDup maxZeros sig with
  | error e' => simp [hres]
  | ok pr =>
    unfold RBC.knit at h
    rw [hres] at h
    exact absurd h (by simp)

/-- C8 witness: a two-frame chain whose single Knit step fails the overlap
floor (empty intersection against a floor of 30) propagates the failure and
leaves the stored summary at its pre-call value (`none`). -/
theorem C8_thm_witness :
    (RBC.knit (RBC.mk [PDF.mk true [(1, 1)], PDF.mk true [(5, 2)]] none)
        pv0 .forward 30 10 (1/20) true).2 =
      .error (ChainError.knit .insufficientOverlap) ∧
    (RBC.knit (RBC.mk [PDF.mk true [(1, 1)], PDF.mk true [(5, 2)]] none)
        pv0 .forward 30 10 (1/20) true).1.summary =
      (RBC.mk [PDF.mk true [(1, 1)], PDF.mk true [(5, 2)]] none).summary :=
  ⟨rfl, C8_thm _ pv0 _ _ _ _ _ _ rfl⟩

/-- The fold underlying `seriesMax` is nonnegative (its base case is 0). -/
theorem foldrMax_nonneg (l : List ℚ) : 0 ≤ l.foldr max 0 := by
  induction l with
  | nil => exact le_refl 0
  | cons a t ih => exact le_max_of_le_right ih

/-- Scaling every value by a nonnegative factor scales the max-fold. -/
theorem foldrMax_scale (l : List ℚ) (c : ℚ) (hc : 0 ≤ c) :
    (l.map (fun v => v * c)).foldr max 0 = l.foldr max 0 * c := by
  induction l with
  | nil => simp
  | cons a t ih =>
    simp only [List.map_cons, List.foldr_cons, ih]
    rw [max_mul_of_nonneg a _ hc]

/-- After one application of the index-style rescaling to a series whose
maximum is positive, the maximum is exactly 100. -/
theorem seriesMax_normalizeRows (rows : Rows) (h : 0 < seriesMax rows) :
    seriesMax (normalizeRows rows) = 100 := by
  have hM : seriesMax rows ≠ 0 := ne_of_gt h
  have hc : (0 : ℚ) ≤ 100 / seriesMax rows := le_of_lt (div_pos (by norm_num) h)
  unfold seriesMax normalizeRows
  rw [List.map_map]
  have hfun : (Prod.snd ∘ fun p : ℕ × ℚ => (p.1, p.2 / seriesMax rows * 100)) =
      (fun v => v * (100 / seriesMax rows)) ∘ Prod.snd := by
    funext p
    simp only [Function.comp_apply]
    ring
  rw [hfun, ← List.map_map, foldrMax_scale _ _ hc]
  show seriesMax rows * (100 / seriesMax rows) = 100
  field_simp

/-- Rescaling a series whose maximum is already 100 is the identity. -/
theorem normalizeRows_of_max100 (rows : Rows) (h : seriesMax rows = 100) :
    normalizeRows rows = rows := by
  unfold normalizeRows
  rw [h]
  have hfun : (fun p : ℕ × ℚ => (p.1, p.2 / (100 : ℚ) * 100)) = id := by
    funext p
    rw [div_mul_cancel₀ _ (by norm_num : (100 : ℚ) ≠ 0)]
    rfl
  rw [hfun, List.map_id]

/-- C9: for a completed chain call with normalization enabled whose
pre-normalization series has a positive maximum, the returned (normalized)
series is a fixed point of the normalization: rescaling it again yields the
same series, and its maximum is exactly 100. -/
theorem C9_thm (st : RBC) (pv : List (ℚ × ℚ) → Option ℚ) (dir : Direction)
    (minDup maxZeros : ℕ) (sig : ℚ) (raw : PDF) (summ : List StepSummary) (df : PDF)
    (hraw : chainResult st pv dir minDup maxZeros sig = .ok (raw, summ))
    (hpos : 0 < seriesMax raw.rows)
    (hdf : (RBC.knit st pv dir minDup maxZeros sig true).2 = .ok df) :
    normalizePDF df = df ∧ seriesMax df.rows = 100 := by
  have hdf' : df = normalizePDF raw := by
    unfold RBC.knit at hdf
    rw [hraw] at hdf
    simp at hdf
    exact hdf.symm
  subst hdf'
  have hmax : seriesMax (normalizePDF raw).rows = 100 :=
    seriesMax_normalizeRows raw.rows hpos
  refine ⟨?_, hmax⟩
  show normalizePDF (normalizePDF raw) = normalizePDF raw
  unfold normalizePDF
  exact congrArg (PDF.mk raw.dtIndex) (normalizeRows_of_max100 _ hmax)

/-- C9 witness: a one-frame chain (no Knit steps) over `{0: 5}` with
normalization: the chain completes, the pre-normalization maximum 5 is
positive, and the normalized output is a fixed point with maximum 100. -/
theorem C9_thm_witness :
    chainResult (RBC.mk [PDF.mk true [(0, 5)]] none) pv0 .forward 30 10 (1/20) =
      .ok (PDF.mk true [(0, 5)], []) ∧
    (0 : ℚ) < seriesMax (PDF.mk true [(0, 5)]).rows ∧
    (RBC.knit (RBC.mk [PDF.mk true [(0, 5)]] none) pv0 .forward 30 10 (1/20) true).2 =
      .ok (normalizePDF (PDF.mk true [(0, 5)])) ∧
    (normalizePDF (normalizePDF (PDF.mk true [(0, 5)])) =
        normalizePDF (PDF.mk true [(0, 5)]) ∧
      seriesMax (normalizePDF (PDF.mk true [(0, 5)])).rows = 100) :=
  ⟨rfl, by decide, rfl,
    C9_thm (RBC.mk [PDF.mk true [(0, 5)]] none) pv0 .forward 30 10 (1/20)
      (PDF.mk true [(0, 5)]) [] (normalizePDF (PDF.mk true [(0, 5)]))
      rfl (by decide) rfl⟩

/-- Inserting a row permutes to consing it. -/
theorem insertPair_perm (p : ℕ × ℚ) (l : Rows) : (insertPair p l).Perm (p :: l) := by
  induction l with
  | nil => exact List.Perm.refl _
  | cons q rest ih =>
    unfold insertPair
    by_cases hle : p.1 ≤ q.1
    · rw [if_pos hle]
    · rw [if_neg hle]
      exact (List.Perm.cons q ih).trans (List.Perm.swap p q rest)

/-- Sorting by key permutes the rows. -/
theorem sortByKey_perm (l : Rows) : (sortByKey l).Perm l := by
  induction l with
  | nil => exact List.Perm.refl _
  | cons p rest ih =>
    exact (insertPair_perm p (sortByKey rest)).trans (List.Perm.cons p ih)

theorem keys_cons (p : ℕ × ℚ) (l : Rows) : keys (p :: l) = p.1 :: keys l := rfl

/-- A timestamp is in the index iff some row carries it. -/
theorem mem_keys {t : ℕ} {l : Rows} : t ∈ keys l ↔ ∃ v, (t, v) ∈ l := by
  unfold keys
  rw [List.mem_map]
  constructor
  · rintro ⟨⟨a, b⟩, hab, h⟩
    exact ⟨b, by rwa [show t = a from h.symm]⟩
  · rintro ⟨v, hv⟩
    exact ⟨(t, v), hv, rfl⟩

/-- A timestamp in the index has a looked-up value carried by a row. -/
theorem valueAt_mem {t : ℕ} {l : Rows} (h : t ∈ keys l) :
    ∃ v, valueAt l t = some v ∧ (t, v) ∈ l := by
  induction l with
  | nil => simp [keys] at h
  | cons p rest ih =>
    rcases p with ⟨a, b⟩
    by_cases hp : a = t
    · subst hp
      exact ⟨b, by simp [valueAt], List.mem_cons.mpr (Or.inl rfl)⟩
    · have h' : t ∈ keys rest := by
        rw [keys_cons] at h
        rcases List.mem_cons.mp h with h1 | h2
        · exact absurd h1.symm hp
        · exact h2
      obtain ⟨v, hv1, hv2⟩ := ih h'
      exact ⟨v, by simp [valueAt, hp, hv1], List.mem_cons.mpr (Or.inr hv2)⟩

/-- With a duplicate-free index, lookup returns the value of any row
carrying the timestamp. -/
theorem valueAt_eq_of_mem {t : ℕ} {v : ℚ} {l : Rows}
    (hnd : (keys l).Nodup) (h : (t, v) ∈ l) : valueAt l t = some v := by
  induction l with
  | nil => cases h
  | cons p rest ih =>
    rw [keys_cons] at hnd
    rcases List.mem_cons.mp h with heq | hmem
    · rw [← heq]
      simp [valueAt]
    · have hne : p.1 ≠ t := by
        intro hpt
        have ht : t ∈ keys rest := mem_keys.mpr ⟨v, hmem⟩
        rw [hpt] at hnd
        exact (List.nodup_cons.mp hnd).1 ht
      have : valueAt (p :: rest) t = valueAt rest t := by
        simp [valueAt, hne]
      rw [this]
      exact ih (List.nodup_cons.mp hnd).2 hmem

/-- The prediction rows carry exactly the source's out-of-overlap keys. -/
theorem keys_predRows (reg : RegOut) (src : Rows) (inter : List ℕ) :
    keys (predRows reg src inter) =
      keys (src.filter (fun p => decide (p.1 ∉ inter))) := by
  unfold predRows keys
  rw [List.map_map]
  rfl

/-- Membership in the overlap region: common to both indices. -/
theorem mem_interKeys {t : ℕ} {df1 df2 : Rows} :
    t ∈ interKeys df1 df2 ↔ (t ∈ keys df1 ∧ t ∈ keys df2) := by
  unfold interKeys
  rw [List.mem_filter]
  simp

/-- C2 counterexample base series. -/
def c2cbase : Rows := [(1, 10), (2, 20), (3, 30)]

/-- C2 counterexample extension series: its overlap values are the constant
nonzero column `[5, 5]`. -/
def c2cext : Rows := [(2, 5), (3, 5), (4, 7)]

/-- C2 counterexample: these two duplicate-free series satisfy every
condition the claim states — ordering, a 2-timestamp overlap against a
floor of 2, no zeros — yet forward Knit does not return a union-indexed
series: `sm.add_constant(has_constant='skip')` treats the constant nonzero
overlap regressor column `[5, 5]` as an existing constant and adds nothing,
after which `res.pvalues["const"]` raises `KeyError`. -/
theorem C2_counterexample :
    (keys c2cbase).Nodup ∧ (keys c2cext).Nodup ∧
    ordCheck (keyMin c2cbase) (keyMin c2cext) = true ∧
    2 ≤ (interKeys c2cbase c2cext).length ∧
    countZerosOn c2cbase (interKeys c2cbase c2cext) ≤ 10 ∧
    countZerosOn c2cext (interKeys c2cbase c2cext) ≤ 10 ∧
    knitCore pv0 c2cbase c2cext .forward 2 10 (1/20) = .error .pvaluesKeyError := by
  refine ⟨by decide, by decide, by decide, by decide, by decide, by decide, ?_⟩
  rfl

/-- C2 (amended): for two well-formed (duplicate-free) series that pass the
ordering, overlap-floor, and degenerate-zero checks, and whose overlap
regressor column really receives a constant column from `add_constant`
(i.e. is neither empty nor constant-and-nonzero), and whose out-of-overlap
prediction block likewise receives one whenever the intercept is retained,
a forward Knit succeeds and returns a series whose timestamp index is
exactly the union of the two inputs' timestamp sets with no duplicate
timestamp, and whose value at every overlap timestamp is the base (target)
series' value there — never a blend. -/
theorem C2_thm (pv : List (ℚ × ℚ) → Option ℚ) (df1 df2 : Rows)
    (minDup maxZeros : ℕ) (sig : ℚ)
    (hnd1 : (keys df1).Nodup) (hnd2 : (keys df2).Nodup)
    (hord : ordCheck (keyMin df1) (keyMin df2) = true)
    (hlen : minDup ≤ (interKeys df1 df2).length)
    (hz1 : countZerosOn df1 (interKeys df1 df2) ≤ maxZeros)
    (hz2 : countZerosOn df2 (interKeys df1 df2) ≤ maxZeros)
    (hcol : addConstantSkips ((interKeys df1 df2).map (fun t => (valueAt df2 t).getD 0)) =
      some false)
    (hpredblk : (regressionStep pv sig (regPairs df1 df2 (interKeys df1 df2))).addConst = true →
      addConstantSkips ((df2.filter (fun p => decide (p.1 ∉ interKeys df1 df2))).map Prod.snd) =
        some false) :
    ∃ out r2 ac,
      knitCore pv df1 df2 .forward minDup maxZeros sig = .ok (out, r2, ac) ∧
      (∀ t, t ∈ keys out ↔ (t ∈ keys df1 ∨ t ∈ keys df2)) ∧
      (keys out).Nodup ∧
      (∀ t, t ∈ interKeys df1 df2 → valueAt out t = valueAt df1 t) := by
  have hok : knitCore pv df1 df2 .forward minDup maxZeros sig =
      .ok (sortByKey (df1 ++
            predRows (regressionStep pv sig (regPairs df1 df2 (interKeys df1 df2)))
              df2 (interKeys df1 df2)),
          (regressionStep pv sig (regPairs df1 df2 (interKeys df1 df2))).r2,
          (regressionStep pv sig (regPairs df1 df2 (interKeys df1 df2))).addConst) := by
    rw [knitCore_of_ord pv df1 df2 .forward minDup maxZeros sig hord,
      if_neg (not_lt.mpr hlen), if_pos ⟨hz1, hz2⟩]
    show knitFit pv sig df1 df2 (interKeys df1 df2) = _
    unfold knitFit
    rw [hcol]
    dsimp only
    by_cases hac : (regressionStep pv sig (regPairs df1 df2 (interKeys df1 df2))).addConst = true
    · rw [if_pos hac, hpredblk hac]
    · rw [if_neg hac]
  set inter := interKeys df1 df2 with hinterdef
  set reg := regressionStep pv sig (regPairs df1 df2 inter) with hregdef
  set pred := predRows reg df2 inter with hpreddef
  have hperm : (sortByKey (df1 ++ pred)).Perm (df1 ++ pred) := sortByKey_perm _
  have hkeysperm : (keys (sortByKey (df1 ++ pred))).Perm (keys (df1 ++ pred)) :=
    hperm.map Prod.fst
  have hkeysapp : keys (df1 ++ pred) = keys df1 ++ keys pred := by
    unfold keys
    exact List.map_append _ _ _
  have hkeyspred : ∀ t, t ∈ keys pred ↔ (t ∈ keys df2 ∧ t ∉ inter) := by
    intro t
    rw [hpreddef, keys_predRows]
    constructor
    · intro h
      rcases mem_keys.mp h with ⟨v, hv⟩
      rcases List.mem_filter.mp hv with ⟨hmem, hc⟩
      exact ⟨mem_keys.mpr ⟨v, hmem⟩, of_decide_eq_true hc⟩
    · rintro ⟨h2, hni⟩
      rcases mem_keys.mp h2 with ⟨v, hv⟩
      exact mem_keys.mpr ⟨v, List.mem_filter.mpr ⟨hv, decide_eq_true hni⟩⟩
  have hnodpred : (keys pred).Nodup := by
    rw [hpreddef, keys_predRows]
    exact List.Nodup.sublist ((List.filter_sublist df2).map Prod.fst) hnd2
  have hnodout : (keys (sortByKey (df1 ++ pred))).Nodup := by
    have hdisj : List.Disjoint (keys df1) (keys pred) := by
      intro t ht1 ht2
      have h2 := (hkeyspred t).mp ht2
      exact h2.2 (mem_interKeys.mpr ⟨ht1, h2.1⟩)
    have happ : (keys df1 ++ keys pred).Nodup :=
      List.Nodup.append hnd1 hnodpred hdisj
    exact hkeysperm.nodup_iff.mpr (hkeysapp ▸ happ)
  refine ⟨sortByKey (df1 ++ pred), reg.r2, reg.addConst, hok, ?_, ?_, ?_⟩
  · intro t
    rw [show keys (sortByKey (df1 ++ pred)) =
        (sortByKey (df1 ++ pred)).map Prod.fst from rfl] at hkeysperm ⊢
    rw [hkeysperm.mem_iff]
    rw [hkeysapp, List.mem_append]
    constructor
    · rintro (h | h)
      · exact Or.inl h
      · exact Or.inr ((hkeyspred t).mp h).1
    · rintro (h | h)
      · exact Or.inl h
      · by_cases hin : t ∈ inter
        · exact Or.inl (mem_interKeys.mp hin).1
        · exact Or.inr ((hkeyspred t).mpr ⟨h, hin⟩)
  · exact hnodout
  · intro t hin
    rcases mem_interKeys.mp hin with ⟨h1, _⟩
    obtain ⟨v, hv, hmemv⟩ := valueAt_mem h1
    have hmem_out : (t, v) ∈ sortByKey (df1 ++ pred) :=
      hperm.mem_iff.mpr (List.mem_append.mpr (Or.inl hmemv))
    rw [valueAt_eq_of_mem hnodout hmem_out, hv]
/-- C2 witness base series. -/
def c2w1 : Rows := [(1, 1), (2, 2), (3, 4)]

/-- C2 witness extension series (non-constant overlap column `[4, 8]` and
non-constant out-of-overlap column `[6, 10]`). -/
def c2w2 : Rows := [(2, 4), (3, 8), (4, 6), (5, 10)]

/-- C2 witness: the two series overlap on timestamps 2 and 3 (floor 2, no
zeros), both `add_constant` calls really add the constant, so the forward
Knit succeeds with union index and base-valued overlap. -/
theorem C2_thm_witness :
    (keys c2w1).Nodup ∧
    (keys c2w2).Nodup ∧
    ordCheck (keyMin c2w1) (keyMin c2w2) = true ∧
    2 ≤ (interKeys c2w1 c2w2).length ∧
    countZerosOn c2w1 (interKeys c2w1 c2w2) ≤ 0 ∧
    countZerosOn c2w2 (interKeys c2w1 c2w2) ≤ 0 ∧
    addConstantSkips ((interKeys c2w1 c2w2).map (fun t => (valueAt c2w2 t).getD 0)) =
      some false ∧
    ((regressionStep pv0 (1/20) (regPairs c2w1 c2w2 (interKeys c2w1 c2w2))).addConst = true →
      addConstantSkips
          ((c2w2.filter (fun p => decide (p.1 ∉ interKeys c2w1 c2w2))).map Prod.snd) =
        some false) ∧
    (∃ out r2 ac,
      knitCore pv0 c2w1 c2w2 .forward 2 0 (1/20) = .ok (out, r2, ac) ∧
      (∀ t, t ∈ keys out ↔ (t ∈ keys c2w1 ∨ t ∈ keys c2w2)) ∧
      (keys out).Nodup ∧
      (∀ t, t ∈ interKeys c2w1 c2w2 → valueAt out t = valueAt c2w1 t)) :=
  ⟨by decide, by decide, by decide, by decide, by decide, by decide, by rfl,
    fun _ => by rfl,
    C2_thm pv0 c2w1 c2w2 2 0 (1/20) (by decide) (by decide) (by decide)
      (by decide) (by decide) (by decide) (by rfl) (fun _ => by rfl)⟩

